import Mathlib

/-!
# tar2zip — verification of the tar-to-zip core (`app.js`)

A shallow embedding of the tar decoding core of `app.js`:

* `validateTarHeader` — the 512-byte USTAR header validator (magic + checksum);
* `walkStep` / `runWalk` / `processTarToZip` — the archive walker loop of
  `processTarToZip`, one loop iteration per step, with a fuel bound (the JS
  loop is not structurally terminating — see the non-termination result below);
* `convertToZip` — the pipeline of `convertToZip`, with the external gzip
  decompressor (`pako.inflate`) abstracted as a function parameter.

Bytes are modelled as `List Nat` (each element < 256 for genuine inputs; the
definitions are total on all of `List Nat`).  JavaScript numbers are modelled
as `Int` — every quantity the code computes from a 12-byte octal field or an
8-byte checksum field is far below 2^53, where IEEE doubles are exact — with
`Option Int` where the JS value can be `NaN` (`parseInt` of garbage).
-/

set_option maxRecDepth 8000
set_option maxHeartbeats 2000000

/-! ## JavaScript primitive models -/

/-- The JavaScript `String.prototype.trim` whitespace set (WhiteSpace ∪
LineTerminator), as unicode code points.  Note U+FEFF is in this set, which is
also why `TextDecoder`'s BOM stripping is invisible to the trim-then-parseInt
pipelines of `app.js`. -/
def isJsWhitespace (c : Nat) : Bool :=
  c = 9 || c = 10 || c = 11 || c = 12 || c = 13 || c = 32 || c = 160 ||
  c = 5760 || (8192 ≤ c && c ≤ 8202) || c = 8232 || c = 8233 ||
  c = 8239 || c = 8287 || c = 12288 || c = 65279

/-- `String.prototype.trim`: drop leading and trailing JS whitespace from a
list of code points. -/
def jsTrim (cs : List Nat) : List Nat :=
  ((cs.dropWhile isJsWhitespace).reverse.dropWhile isJsWhitespace).reverse

/-- `new TextDecoder().decode` (WHATWG UTF-8 with replacement): bytes to
unicode code points, emitting U+FFFD (65533) on malformed sequences and
resuming at the offending byte.  We do not strip a leading BOM: the decoded
strings of `app.js` are only ever compared to `"ustar"` (a 5-byte slice can
never be BOM + `"ustar"`), trimmed (U+FEFF is JS whitespace), or fed to
`parseInt` (which skips U+FEFF as whitespace), so the difference is
unobservable in the embedded code. -/
def utf8Decode : List Nat → List Nat
  | [] => []
  | b :: rest =>
    if b ≤ 127 then b :: utf8Decode rest
    else if 194 ≤ b ∧ b ≤ 223 then
      match rest with
      | [] => [65533]
      | c1 :: r1 =>
        if 128 ≤ c1 ∧ c1 ≤ 191 then ((b - 192) * 64 + (c1 - 128)) :: utf8Decode r1
        else 65533 :: utf8Decode (c1 :: r1)
    else if 224 ≤ b ∧ b ≤ 239 then
      match rest with
      | [] => [65533]
      | c1 :: r1 =>
        if (if b = 224 then 160 else 128) ≤ c1 ∧ c1 ≤ (if b = 237 then 159 else 191) then
          match r1 with
          | [] => [65533]
          | c2 :: r2 =>
            if 128 ≤ c2 ∧ c2 ≤ 191 then
              ((b - 224) * 4096 + (c1 - 128) * 64 + (c2 - 128)) :: utf8Decode r2
            else 65533 :: utf8Decode (c2 :: r2)
        else 65533 :: utf8Decode (c1 :: r1)
    else if 240 ≤ b ∧ b ≤ 244 then
      match rest with
      | [] => [65533]
      | c1 :: r1 =>
        if (if b = 240 then 144 else 128) ≤ c1 ∧ c1 ≤ (if b = 244 then 143 else 191) then
          match r1 with
          | [] => [65533]
          | c2 :: r2 =>
            if 128 ≤ c2 ∧ c2 ≤ 191 then
              match r2 with
              | [] => [65533]
              | c3 :: r3 =>
                if 128 ≤ c3 ∧ c3 ≤ 191 then
                  ((b - 240) * 262144 + (c1 - 128) * 4096 + (c2 - 128) * 64 + (c3 - 128)) :: utf8Decode r3
                else 65533 :: utf8Decode (c3 :: r3)
            else 65533 :: utf8Decode (c2 :: r2)
        else 65533 :: utf8Decode (c1 :: r1)
    else 65533 :: utf8Decode rest

/-- Value of a list of octal digit code points (each in 48..55), most
significant first. -/
def octVal (ds : List Nat) : Int :=
  ds.foldl (fun acc d => acc * 8 + (Int.ofNat d - 48)) 0

/-- `parseInt(s, 8)`: skip leading JS whitespace, read an optional sign, then
the longest prefix of octal digits; `none` models the `NaN` result when no
digit is found. -/
def jsParseIntOct (cs : List Nat) : Option Int :=
  let cs1 := cs.dropWhile isJsWhitespace
  let signAndRest : Int × List Nat :=
    match cs1 with
    | 43 :: t => (1, t)
    | 45 :: t => (-1, t)
    | _ => (1, cs1)
  let ds := signAndRest.2.takeWhile (fun c => 48 ≤ c ∧ c ≤ 55)
  if ds.isEmpty then none else some (signAndRest.1 * octVal ds)

/-- `Uint8Array.prototype.slice(s, e)`: negative indices count from the end,
then both are clamped to `[0, length]`. -/
def jsSlice (l : List Nat) (s e : Int) : List Nat :=
  let len : Int := l.length
  let s1 : Int := if s < 0 then max (len + s) 0 else min s len
  let e1 : Int := if e < 0 then max (len + e) 0 else min e len
  if s1 < e1 then (l.drop s1.toNat).take (e1.toNat - s1.toNat) else []

/-- `String.prototype.includes`, on code-point lists. -/
def jsIncludes (hay needle : List Nat) : Bool :=
  hay.tails.any (fun t => needle.isPrefixOf t)

/-! ## HeaderCodec: `validateTarHeader` and the field decoders -/

/-- The code points of the magic text `"ustar"`. -/
def ustarCodes : List Nat := [117, 115, 116, 97, 114]

/-- The loop body of the checksum sum, walking the bytes in order while
carrying the index `i` of the JS `for (let i = 0; i < 512; i++)` loop: byte
`i` contributes 32 (ASCII space) on the checksum field `148 ≤ i < 156` and
its own value otherwise, and the loop stops at `i = 512`. -/
def checksumLoop : Nat → List Nat → Nat
  | i, b :: t =>
    if i < 512 then (if 148 ≤ i ∧ i < 156 then 32 else b) + checksumLoop (i + 1) t
    else 0
  | _, [] => 0

/-- The checksum sum of `validateTarHeader`: the sum of all 512 bytes with the
checksum field (indices 148..155) each counted as ASCII space (32).  (On a
list shorter than 512 the JS sum is `NaN` — reads past the end are
`undefined` — which `validateTarHeader` handles with its length guard.) -/
def calculatedChecksum (header : List Nat) : Nat :=
  checksumLoop 0 header

/-- `validateTarHeader(header)` from `app.js`: the magic check on bytes
[257,262) and the checksum check.  When `header` has fewer than 512 bytes (the
walker can produce such a slice only through negative offsets), the JS sum
reads `header[i] === undefined` for some `i`, making it `NaN`, and the strict
equality is then false; the `header.length < 512` test models exactly that. -/
def validateTarHeader (header : List Nat) : Bool :=
  if utf8Decode (jsSlice header 257 262) ≠ ustarCodes then false
  else if header.length < 512 then false
  else jsParseIntOct (jsTrim (utf8Decode (jsSlice header 148 156)))
         == some (Int.ofNat (calculatedChecksum header))

/-- Filename decoding: `decode(bytes).trim().replace(/\0/g, '')`. -/
def decodeName (bytes : List Nat) : List Nat :=
  (jsTrim (utf8Decode bytes)).filter (fun c => !(c == 0))

/-- The name field, bytes [0,100) of the header. -/
def nameOfHeader (header : List Nat) : List Nat :=
  decodeName (jsSlice header 0 100)

/-- The type field: `String.fromCharCode(header[156])`.  An out-of-range read
gives `undefined`, and `fromCharCode(undefined)` is `"\u0000"`, hence the
default 0. -/
def typeOfHeader (header : List Nat) : Nat :=
  header.getD 156 0

/-- The size field: `parseInt(decode(header.slice(124,136)).trim(), 8)`;
`none` models `NaN`. -/
def sizeOfHeader (header : List Nat) : Option Int :=
  jsParseIntOct (jsTrim (utf8Decode (jsSlice header 124 136)))

/-- The link-target field, bytes [157,257) of the header. -/
def linkOfHeader (header : List Nat) : List Nat :=
  decodeName (jsSlice header 157 257)

/-- The code points of the PAX marker `"PaxHeader"`. -/
def paxCodes : List Nat := [80, 97, 120, 72, 101, 97, 100, 101, 114]

/-! ## ArchiveWalker: the `processTarToZip` loop -/

/-- One recorded call on the ZIP sink:
`zip.file(name, bytes)`, `zip.file(name, link, { comment: "Symbolic Link" })`,
or `zip.folder(name)`. -/
inductive SinkCall
  | fileBytes (name : List Nat) (content : List Nat)
  | fileSymlink (name : List Nat) (target : List Nat)
  | folder (name : List Nat)
deriving DecidableEq, Repr

/-- The errors `processTarToZip` can raise, one constructor per `throw` site:

* `truncatedHeader` — `"Unexpected end of tar file"` (fatal: rethrown by the
  catch block because the message contains `"Unexpected end"`);
* `truncatedPayload name` — `` `Unexpected end of file while reading ${name}` ``
  (fatal, same reason);
* `emptyArchive` — `"No valid files found in the archive"`;
* `multipleInvalid` — `"Multiple invalid headers found - file might be corrupted"`;
* `failed e` — `` `Failed to process tar file: ${e}` ``, thrown from the catch
  block when the consecutive-error counter reaches 3.

In the spec's taxonomy the first two are the TruncatedArchive class and
`emptyArchive`, `multipleInvalid` and their `failed` wraps are the
CorruptArchive class. -/
inductive TarErr
  | truncatedHeader
  | emptyArchive
  | multipleInvalid
  | truncatedPayload (name : List Nat)
  | failed (inner : TarErr)
deriving DecidableEq, Repr

/-- The mutable locals of `processTarToZip`.  `offset = none` models the JS
`offset` having become `NaN` (adding a `NaN` size); `sink` records the calls
made on the `zip` object, in order. -/
structure WalkState where
  offset : Option Int
  fileCount : Nat
  consecutiveErrors : Nat
  sink : List SinkCall
deriving DecidableEq, Repr

deriving instance DecidableEq for Except

/-- Outcome of one iteration of the `while` loop: either the function is done
(loop exited or a fatal error propagated) or the loop continues in a new
state. -/
inductive StepResult
  | done (r : Except TarErr (List SinkCall))
  | next (s : WalkState)
deriving DecidableEq, Repr

/-- `Math.ceil(n / 512)` for an integer `n` (exact in IEEE doubles for every
value a 12-octal-digit field can produce): the ceiling of `n / 512`, computed
as `⌊(n + 511) / 512⌋`. -/
def ceilDiv512 (n : Int) : Int :=
  (n + 511) / 512

/-- `offset + 512 + Math.ceil(size / 512) * 512`; `none` (NaN) propagates. -/
def advanceOffset (o : Int) (size : Option Int) : Option Int :=
  size.map (fun n => o + 512 + 512 * ceilDiv512 n)

/-- The final `fileCount === 0` check after the loop (line 126). -/
def finalCheck (s : WalkState) : Except TarErr (List SinkCall) :=
  if s.fileCount = 0 then .error .emptyArchive else .ok s.sink

/-- The catch block for a recoverable error `e` thrown at offset `o`:
increment `consecutiveErrors`; at 3, throw the wrapped fatal error; otherwise
realign `offset` to `Math.ceil(offset / 512) * 512` and continue. -/
def recoverStep (s : WalkState) (o : Int) (e : TarErr) : StepResult :=
  if 3 ≤ s.consecutiveErrors + 1 then .done (.error (.failed e))
  else .next { s with consecutiveErrors := s.consecutiveErrors + 1,
                      offset := some (ceilDiv512 o * 512) }

/-- Lines 61–110: decode the fields of a validated header and dispatch on the
entry type.  The branch `case '':` of the JS switch is unreachable —
`String.fromCharCode(header[156])` always has length 1 — so a type byte of 0
(the pre-POSIX convention for regular files) falls through the switch. -/
def dispatchEntry (buf : List Nat) (o : Int) (header : List Nat) (s : WalkState) : StepResult :=
  let filename := nameOfHeader header
  let fileType := typeOfHeader header
  let size := sizeOfHeader header
  let linkname := linkOfHeader header
  if jsIncludes filename paxCodes then
    .next { s with offset := advanceOffset o size }
  else if fileType == 48 then
    match size with
    | some n =>
      if 0 < n then
        if (buf.length : Int) < o + 512 + n then
          .done (.error (.truncatedPayload filename))
        else
          .next { s with sink := s.sink ++ [.fileBytes filename (jsSlice buf (o + 512) (o + 512 + n))],
                         fileCount := s.fileCount + 1,
                         offset := some (o + 512 + 512 * ceilDiv512 n) }
      else .next { s with offset := some (o + 512 + 512 * ceilDiv512 n) }
    | none => .next { s with offset := none }
  else if fileType == 50 then
    .next { s with sink := s.sink ++ [.fileSymlink filename linkname],
                   fileCount := s.fileCount + 1,
                   offset := advanceOffset o size }
  else if fileType == 53 then
    .next { s with sink := s.sink ++ [.folder filename],
                   fileCount := s.fileCount + 1,
                   offset := advanceOffset o size }
  else .next { s with offset := advanceOffset o size }

/-- Lines 42–110 on a scanned block: the end-of-archive (all-zero) test, the
header validation with its skip-one-block recovery, then the entry dispatch.
An invalid header that reaches the threshold throws `multipleInvalid`, which
the catch block increments past the threshold again and rethrows wrapped. -/
def processBlock (buf : List Nat) (o : Int) (header : List Nat) (s : WalkState) : StepResult :=
  if header.all (fun b => b == 0) then
    if s.fileCount = 0 then recoverStep s o .emptyArchive
    else .done (finalCheck s)
  else if !(validateTarHeader header) then
    if 3 ≤ s.consecutiveErrors + 1 then .done (.error (.failed .multipleInvalid))
    else .next { s with consecutiveErrors := s.consecutiveErrors + 1,
                        offset := some (o + 512) }
  else dispatchEntry buf o header { s with consecutiveErrors := 0 }

/-- One iteration of the `while (offset < uint8Array.length)` loop, including
the loop test itself and the header-bounds test of line 35. -/
def walkStep (buf : List Nat) (s : WalkState) : StepResult :=
  match s.offset with
  | none => .done (finalCheck s)
  | some o =>
    if o < (buf.length : Int) then
      if (buf.length : Int) < o + 512 then .done (.error .truncatedHeader)
      else processBlock buf o (jsSlice buf o (o + 512)) s
    else .done (finalCheck s)

/-- Run the loop with a fuel bound: `none` means the fuel ran out with the
loop still going (the JS loop does not terminate on all inputs). -/
def runWalk (buf : List Nat) : Nat → WalkState → Option (Except TarErr (List SinkCall))
  | fuel, s =>
    match walkStep buf s with
    | .done r => some r
    | .next s1 =>
      match fuel with
      | 0 => none
      | f + 1 => runWalk buf f s1

/-- `processTarToZip(uint8Array, zip)` with an empty starting sink. -/
def processTarToZip (fuel : Nat) (buf : List Nat) : Option (Except TarErr (List SinkCall)) :=
  runWalk buf fuel { offset := some 0, fileCount := 0, consecutiveErrors := 0, sink := [] }

/-! ## ConversionPipeline: `convertToZip` -/

/-- Pipeline-level errors: `decompression` is
`'Failed to decompress gzip file. The file might be corrupted.'`;
`tar e` is an error propagated from `processTarToZip`. -/
inductive ConvErr
  | decompression
  | tar (e : TarErr)
deriving DecidableEq, Repr

/-- `uint8Array[0] === 0x1f && uint8Array[1] === 0x8b`; an out-of-range read
is `undefined`, which is not strictly equal to any number. -/
def isGzipped (buf : List Nat) : Bool :=
  buf.get? 0 == some 31 && buf.get? 1 == some 139

/-- `convertToZip(file)` with the file already read into `buf` and the external
`pako.inflate` abstracted as `inflate` (UI calls omitted): detect the gzip
magic, optionally decompress (a decompression failure is its own fatal error),
then walk the (possibly decompressed) buffer. -/
def convertToZip (inflate : List Nat → Except Unit (List Nat)) (fuel : Nat)
    (buf : List Nat) : Option (Except ConvErr (List SinkCall)) :=
  if isGzipped buf then
    match inflate buf with
    | .error _ => some (.error .decompression)
    | .ok out => (processTarToZip fuel out).map (Except.mapError ConvErr.tar)
  else (processTarToZip fuel buf).map (Except.mapError ConvErr.tar)

/-! ## Concrete archives (fixtures for the concrete results) -/

/-- Overwrite the bytes of `base` at position `pos` with `field`. -/
def writeAt (base : List Nat) (pos : Nat) (field : List Nat) : List Nat :=
  base.take pos ++ field ++ base.drop (pos + field.length)

/-- Render `n < 8^6` as 6 ASCII octal digits, most significant first. -/
def octalDigits6 (n : Nat) : List Nat :=
  [48 + n / 32768 % 8, 48 + n / 4096 % 8, 48 + n / 512 % 8,
   48 + n / 64 % 8, 48 + n / 8 % 8, 48 + n % 8]

/-- Build a 512-byte USTAR header block over a zero base: `name` at 0,
`sizeField` at 124, type byte at 156, `link` at 157, the magic `"ustar"` at
257, and a correct checksum (6 octal digits, NUL, space) at 148. -/
def mkHeader (name : List Nat) (sizeField : List Nat) (typ : Nat) (link : List Nat) : List Nat :=
  let h0 := writeAt (List.replicate 512 0) 0 name
  let h1 := writeAt h0 124 sizeField
  let h2 := writeAt h1 148 (List.replicate 8 32)
  let h3 := writeAt h2 156 [typ]
  let h4 := writeAt h3 157 link
  let h5 := writeAt h4 257 ustarCodes
  writeAt h5 148 (octalDigits6 (calculatedChecksum h5) ++ [0, 32])

/-- An all-zero terminator block. -/
def zeroBlock : List Nat := List.replicate 512 0

/-- A 512-byte block that is not all zero and fails validation. -/
def junkBlock : List Nat := List.replicate 512 1

/-- A valid directory entry named `"d"` with size 0. -/
def dirHeader : List Nat := mkHeader [100] [48] 53 []

/-- A valid regular-file entry `"hello.txt"` of size 2. -/
def helloHeader : List Nat :=
  mkHeader [104, 101, 108, 108, 111, 46, 116, 120, 116] [50] 48 []

/-- A single-entry archive: `"hello.txt"` with content `"hi"` (padded). -/
def helloTar : List Nat := helloHeader ++ ([104, 105] ++ List.replicate 510 0)

/-- A valid directory entry whose 12-byte size field claims `8589934591`
(octal `77777777777`) — far beyond any buffer used here. -/
def hugeDirHeader : List Nat :=
  mkHeader [100] (List.replicate 11 55) 53 []

/-- A valid directory entry whose size field is the non-octal text `"xyz"`. -/
def garbageSizeHeader : List Nat := mkHeader [100] [120, 121, 122] 53 []

/-- `garbageSizeHeader` followed by a valid directory entry. -/
def garbageSizeTar : List Nat := garbageSizeHeader ++ dirHeader

/-- A valid regular-file entry `"x"` whose size field reads `"-1001"`
(parsing to the octal integer −513). -/
def negSizeHeader : List Nat := mkHeader [120] [45, 49, 48, 48, 49] 48 []

/-- A valid entry `"f"` of size 2 whose type byte is 0 (the pre-POSIX
regular-file convention), with its content block. -/
def oldTypeTar : List Nat :=
  mkHeader [102] [50] 0 [] ++ ([104, 105] ++ List.replicate 510 0)

/-! ## Helper lemmas -/

/-- `jsSlice` with non-negative indices is plain drop-and-take. -/
theorem jsSlice_nonneg {l : List Nat} {s e : Int} (hs : 0 ≤ s) (he : 0 ≤ e) :
    jsSlice l s e = (l.drop s.toNat).take (e.toNat - s.toNat) := by
  simp only [jsSlice]
  rw [if_neg (show ¬ s < 0 by omega), if_neg (show ¬ e < 0 by omega)]
  rcases le_total s (l.length : Int) with hsl | hsl <;>
    rcases le_total e (l.length : Int) with hel | hel
  · rw [min_eq_left hsl, min_eq_left hel]
    split
    · rfl
    · next hlt =>
      rw [(by omega : e.toNat - s.toNat = 0)]
      simp
  · rw [min_eq_left hsl, min_eq_right hel]
    split
    · next hlt =>
      rw [List.take_of_length_le (by rw [List.length_drop]; omega),
          List.take_of_length_le (by rw [List.length_drop]; omega)]
    · next hlt =>
      rw [List.drop_eq_nil_of_le (by omega)]
      simp
  · rw [min_eq_right hsl, min_eq_left hel]
    split
    · next hlt =>
      exact absurd hlt (by omega)
    · next hlt =>
      rw [List.drop_eq_nil_of_le (by omega)]
      simp
  · rw [min_eq_right hsl, min_eq_right hel]
    split
    · next hlt =>
      exact absurd hlt (by omega)
    · next hlt =>
      rw [List.drop_eq_nil_of_le (by omega)]
      simp

/-- A 512-byte list is its own slice `[0, 512)`. -/
theorem jsSlice_self {a : List Nat} (ha : a.length = 512) : jsSlice a 0 512 = a := by
  rw [jsSlice_nonneg (by norm_num) (by norm_num)]
  rw [(by omega : (0 : Int).toNat = 0), (by omega : (512 : Int).toNat = 512)]
  simp only [List.drop_zero, Nat.sub_zero]
  exact List.take_of_length_le (by omega)

/-- The slice `[0, 512)` of a buffer starting with a 512-byte block. -/
theorem jsSlice_append_left {a l : List Nat} (ha : a.length = 512) :
    jsSlice (a ++ l) 0 512 = a := by
  rw [jsSlice_nonneg (by norm_num) (by norm_num)]
  rw [(by omega : (0 : Int).toNat = 0), (by omega : (512 : Int).toNat = 512)]
  simp only [List.drop_zero, Nat.sub_zero]
  rw [← ha, List.take_left]

/-- Slicing past a leading block is slicing the tail. -/
theorem jsSlice_shift {a l : List Nat} {s e : Int} (hs : 0 ≤ s) (he : 0 ≤ e) :
    jsSlice (a ++ l) ((a.length : Int) + s) ((a.length : Int) + e) = jsSlice l s e := by
  rw [jsSlice_nonneg (by omega) (by omega), jsSlice_nonneg hs he]
  rw [(by omega : ((a.length : Int) + s).toNat = a.length + s.toNat)]
  rw [(by omega : ((a.length : Int) + e).toNat - (a.length + s.toNat) = e.toNat - s.toNat)]
  rw [← List.drop_drop, List.drop_left]

/-- A step that is `done` decides the run at any fuel. -/
theorem runWalk_done {buf : List Nat} {s : WalkState} {r : Except TarErr (List SinkCall)}
    (h : walkStep buf s = .done r) (fuel : Nat) : runWalk buf fuel s = some r := by
  cases fuel <;> · rw [runWalk, h]

/-- A step that continues consumes one unit of fuel. -/
theorem runWalk_next {buf : List Nat} {s s1 : WalkState} (fuel : Nat)
    (h : walkStep buf s = .next s1) : runWalk buf (fuel + 1) s = runWalk buf fuel s1 := by
  rw [runWalk, h]

/-- At a header-scan position with a full block available, the step is
`processBlock` on the scanned header. -/
theorem walkStep_scan {buf : List Nat} {s : WalkState} {o : Int}
    (hoff : s.offset = some o) (h1 : o < (buf.length : Int))
    (h2 : ¬ (buf.length : Int) < o + 512) :
    walkStep buf s = processBlock buf o (jsSlice buf o (o + 512)) s := by
  obtain ⟨off, fc, ce, sk⟩ := s
  simp only [WalkState.offset] at hoff
  subst hoff
  simp only [walkStep]
  rw [if_pos h1, if_neg h2]

/-- Realigning a 512-aligned offset is the identity. -/
theorem ceilDiv512_mul_of_dvd {o : Int} (h : (512 : Int) ∣ o) :
    ceilDiv512 o * 512 = o := by
  obtain ⟨k, rfl⟩ := h
  unfold ceilDiv512
  rw [(by ring : (512 : Int) * k + 511 = 511 + k * 512),
      Int.add_mul_ediv_right _ _ (by norm_num)]
  norm_num [Int.mul_comm]

/-- UTF-8 decoding of an all-zero byte list is the identity. -/
theorem utf8Decode_all_zero {l : List Nat} (h : ∀ x ∈ l, x = 0) : utf8Decode l = l := by
  induction l with
  | nil => rfl
  | cons b t ih =>
    have hb : b = 0 := h b (by simp)
    subst hb
    have ht : utf8Decode t = t := ih (fun x hx => h x (by simp [hx]))
    rw [utf8Decode.eq_def]
    norm_num [ht]

/-- Every element of a slice is an element of the list. -/
theorem mem_of_mem_jsSlice {l : List Nat} {s e : Int} {x : Nat}
    (hx : x ∈ jsSlice l s e) : x ∈ l := by
  simp only [jsSlice] at hx
  repeat' split at hx
  all_goals first
    | exact List.mem_of_mem_drop (List.mem_of_mem_take hx)
    | simp at hx

/-- An all-zero block never validates: its magic slice decodes to zeros, not
`"ustar"`. -/
theorem validateTarHeader_of_allZero {h : List Nat}
    (hz : h.all (fun b => b == 0) = true) : validateTarHeader h = false := by
  have hmem : ∀ x ∈ jsSlice h 257 262, x = 0 := by
    intro x hx
    simpa using List.all_eq_true.mp hz x (mem_of_mem_jsSlice hx)
  have hne : utf8Decode (jsSlice h 257 262) ≠ ustarCodes := by
    rw [utf8Decode_all_zero hmem]
    intro he
    have h117 : (117 : Nat) ∈ jsSlice h 257 262 := by rw [he]; simp [ustarCodes]
    simpa using hmem 117 h117
  unfold validateTarHeader
  rw [if_pos hne]

/-- Shape of a continuing step: the sink and entry count either both stay, or
exactly one call is appended and the count increments. -/
theorem walkStep_next_shape {buf : List Nat} {s s1 : WalkState}
    (h : walkStep buf s = .next s1) :
    (s1.sink = s.sink ∧ s1.fileCount = s.fileCount) ∨
    (∃ c, s1.sink = s.sink ++ [c] ∧ s1.fileCount = s.fileCount + 1) := by
  obtain ⟨off, fc, ce, sk⟩ := s
  cases off with
  | none => simp [walkStep] at h
  | some o =>
    simp only [walkStep] at h
    split at h
    · split at h
      · simp at h
      · simp only [processBlock] at h
        split at h
        · split at h
          · simp only [recoverStep] at h
            split at h
            · simp at h
            · cases h
              exact Or.inl ⟨rfl, rfl⟩
          · simp at h
        · split at h
          · split at h
            · simp at h
            · cases h
              exact Or.inl ⟨rfl, rfl⟩
          · simp only [dispatchEntry] at h
            split at h
            · cases h
              exact Or.inl ⟨rfl, rfl⟩
            · split at h
              · split at h
                · split at h
                  · split at h
                    · simp at h
                    · cases h
                      exact Or.inr ⟨_, rfl, rfl⟩
                  · cases h
                    exact Or.inl ⟨rfl, rfl⟩
                · cases h
                  exact Or.inl ⟨rfl, rfl⟩
              · split at h
                · cases h
                  exact Or.inr ⟨_, rfl, rfl⟩
                · split at h
                  · cases h
                    exact Or.inr ⟨_, rfl, rfl⟩
                  · cases h
                    exact Or.inl ⟨rfl, rfl⟩
    · simp at h

/-- With a `NaN` offset the loop test fails and the final check runs. -/
theorem walkStep_offset_none {buf : List Nat} {s : WalkState} (h : s.offset = none) :
    walkStep buf s = .done (finalCheck s) := by
  obtain ⟨off, fc, ce, sk⟩ := s
  simp only [WalkState.offset] at h
  subst h
  rfl

/-- When the offset has reached or passed the end, the loop exits. -/
theorem walkStep_exit {buf : List Nat} {s : WalkState} {o : Int}
    (hoff : s.offset = some o) (h : ¬ o < (buf.length : Int)) :
    walkStep buf s = .done (finalCheck s) := by
  obtain ⟨off, fc, ce, sk⟩ := s
  simp only [WalkState.offset] at hoff
  subst hoff
  simp only [walkStep]
  rw [if_neg h]

/-- Fewer than 512 bytes left at a scan position: the fatal header
truncation. -/
theorem walkStep_truncated {buf : List Nat} {s : WalkState} {o : Int}
    (hoff : s.offset = some o) (h1 : o < (buf.length : Int))
    (h2 : (buf.length : Int) < o + 512) :
    walkStep buf s = .done (.error .truncatedHeader) := by
  obtain ⟨off, fc, ce, sk⟩ := s
  simp only [WalkState.offset] at hoff
  subst hoff
  simp only [walkStep]
  rw [if_pos h1, if_pos h2]

/-- A block that validates is dispatched with the error counter reset. -/
theorem processBlock_valid {buf : List Nat} {o : Int} {header : List Nat} {s : WalkState}
    (hv : validateTarHeader header = true) :
    processBlock buf o header s =
      dispatchEntry buf o header { s with consecutiveErrors := 0 } := by
  have hz : header.all (fun b => b == 0) = false := by
    cases hall : header.all (fun b => b == 0)
    · rfl
    · rw [validateTarHeader_of_allZero hall] at hv
      cases hv
  unfold processBlock
  rw [if_neg (by simp [hz]), if_neg (by simp [hv])]

/-- A non-zero block that fails validation: count it and skip one block, or
give up at the threshold. -/
theorem processBlock_invalid {buf : List Nat} {o : Int} {header : List Nat} {s : WalkState}
    (hz : header.all (fun b => b == 0) = false)
    (hv : validateTarHeader header = false) :
    processBlock buf o header s =
      if 3 ≤ s.consecutiveErrors + 1 then .done (.error (.failed .multipleInvalid))
      else .next { s with consecutiveErrors := s.consecutiveErrors + 1,
                          offset := some (o + 512) } := by
  unfold processBlock
  rw [if_neg (by simp [hz]), if_pos (by simp [hv])]

/-- An all-zero block: end of archive, or the empty-archive error path. -/
theorem processBlock_zero {buf : List Nat} {o : Int} {header : List Nat} {s : WalkState}
    (hz : header.all (fun b => b == 0) = true) :
    processBlock buf o header s =
      if s.fileCount = 0 then recoverStep s o .emptyArchive
      else .done (finalCheck s) := by
  unfold processBlock
  rw [if_pos hz]

/-- The only way a step ends the run with `ok` is the final check passing:
the result is the current sink and the entry count is non-zero. -/
theorem walkStep_done_ok {buf : List Nat} {t : WalkState} {x : List SinkCall}
    (h : walkStep buf t = .done (.ok x)) : x = t.sink ∧ t.fileCount ≠ 0 := by
  obtain ⟨off, fc, ce, sk⟩ := t
  cases off with
  | none =>
    simp only [walkStep, finalCheck] at h
    split at h
    · simp at h
    · next hfc =>
      simp only [StepResult.done.injEq, Except.ok.injEq] at h
      exact ⟨h.symm, hfc⟩
  | some o =>
    simp only [walkStep] at h
    split at h
    · split at h
      · simp at h
      · simp only [processBlock] at h
        split at h
        · split at h
          · simp only [recoverStep] at h
            split at h <;> simp at h
          · simp only [finalCheck] at h
            split at h
            · simp at h
            · next hfc =>
              simp only [StepResult.done.injEq, Except.ok.injEq] at h
              exact ⟨h.symm, hfc⟩
        · split at h
          · split at h <;> simp at h
          · simp only [dispatchEntry] at h
            repeat' split at h
            all_goals simp at h
    · simp only [finalCheck] at h
      split at h
      · simp at h
      · next hfc =>
        simp only [StepResult.done.injEq, Except.ok.injEq] at h
        exact ⟨h.symm, hfc⟩

/-- Shape of a continuing step's new offset: the 512-byte skip, the catch
realignment, the `512 + padded size` advance for some decoded size, or `NaN`. -/
theorem walkStep_next_offset {buf : List Nat} {s s1 : WalkState}
    (h : walkStep buf s = .next s1) :
    ∃ o, s.offset = some o ∧
      (s1.offset = some (o + 512) ∨ s1.offset = some (ceilDiv512 o * 512) ∨
       s1.offset = none ∨ ∃ n : Int, s1.offset = some (o + 512 + 512 * ceilDiv512 n)) := by
  obtain ⟨off, fc, ce, sk⟩ := s
  cases off with
  | none => simp [walkStep] at h
  | some o =>
    refine ⟨o, rfl, ?_⟩
    simp only [walkStep] at h
    split at h
    · split at h
      · simp at h
      · simp only [processBlock] at h
        split at h
        · split at h
          · simp only [recoverStep] at h
            split at h
            · simp at h
            · cases h
              exact Or.inr (Or.inl rfl)
          · simp at h
        · split at h
          · split at h
            · simp at h
            · cases h
              exact Or.inl rfl
          · simp only [dispatchEntry] at h
            rcases hsz : sizeOfHeader (jsSlice buf o (o + 512)) with _ | n <;>
              rw [hsz] at h
            all_goals repeat' split at h
            all_goals
              first
                | (simp only [StepResult.next.injEq] at h
                   subst h
                   first
                     | exact Or.inr (Or.inr (Or.inl rfl))
                     | exact Or.inr (Or.inr (Or.inr ⟨_, rfl⟩)))
                | simp at h
    · simp at h

/-! ## Claim results -/

/-- Claim C2 (confirmed): for every 512-byte block, `validateTarHeader`
returns true iff bytes [257,262) decode to the text `"ustar"` and the stored
checksum — the trimmed octal integer parsed from bytes [148,156) — equals the
sum of all 512 bytes with each checksum-field byte counted as ASCII space 32;
the embedded function is total on every byte list and cannot throw. -/
theorem validateTarHeader_contract (h : List Nat) (hlen : h.length = 512) :
    validateTarHeader h = true ↔
      (utf8Decode (jsSlice h 257 262) = ustarCodes ∧
       jsParseIntOct (jsTrim (utf8Decode (jsSlice h 148 156)))
         = some (Int.ofNat (calculatedChecksum h))) := by
  constructor
  · intro hv
    by_cases hm : utf8Decode (jsSlice h 257 262) = ustarCodes
    · refine ⟨hm, ?_⟩
      unfold validateTarHeader at hv
      rw [if_neg (fun hne => hne hm), if_neg (by omega)] at hv
      exact beq_iff_eq.mp hv
    · unfold validateTarHeader at hv
      rw [if_pos hm] at hv
      cases hv
  · rintro ⟨hm, hc⟩
    unfold validateTarHeader
    rw [if_neg (fun hne => hne hm), if_neg (by omega)]
    exact beq_iff_eq.mpr hc

/-- Witness for C2 at the concrete `"hello.txt"` header. -/
theorem validateTarHeader_contract_witness :
    validateTarHeader helloHeader = true ↔
      (utf8Decode (jsSlice helloHeader 257 262) = ustarCodes ∧
       jsParseIntOct (jsTrim (utf8Decode (jsSlice helloHeader 148 156)))
         = some (Int.ofNat (calculatedChecksum helloHeader))) :=
  validateTarHeader_contract helloHeader (by rfl)

/-- Claim C1 (corrected, amended): at any header-scan position with fewer
than 512 bytes remaining the walk raises the fatal `truncatedHeader` error
(`"Unexpected end of tar file"`, rethrown by the catch block), and hence every
NON-EMPTY input shorter than 512 bytes raises it; the empty input, however,
never scans a header — the loop body never runs — and instead fails the final
`fileCount === 0` check, raising `emptyArchive` (a CorruptArchive-class
error), not TruncatedArchive. -/
theorem truncation_at_header_scan :
    (∀ (buf : List Nat) (s : WalkState) (o : Int), s.offset = some o →
        o < (buf.length : Int) → (buf.length : Int) < o + 512 →
        walkStep buf s = .done (.error .truncatedHeader)) ∧
    (∀ (fuel : Nat) (buf : List Nat), 0 < buf.length → buf.length < 512 →
        processTarToZip fuel buf = some (.error .truncatedHeader)) ∧
    (∀ fuel : Nat, processTarToZip fuel [] = some (.error .emptyArchive)) := by
  refine ⟨?_, ?_, ?_⟩
  · intro buf s o hoff h1 h2
    exact walkStep_truncated hoff h1 h2
  · intro fuel buf h1 h2
    have hstep : walkStep buf
        { offset := some 0, fileCount := 0, consecutiveErrors := 0, sink := [] }
        = .done (.error .truncatedHeader) :=
      walkStep_truncated rfl (by omega) (by omega)
    exact runWalk_done hstep fuel
  · intro fuel
    exact runWalk_done (show walkStep []
      { offset := some 0, fileCount := 0, consecutiveErrors := 0, sink := [] }
      = .done (.error .emptyArchive) from rfl) fuel

/-- Witness for C1 at a concrete 100-byte input and a concrete scan state. -/
theorem truncation_at_header_scan_witness :
    processTarToZip 1 (List.replicate 100 7) = some (.error .truncatedHeader) :=
  truncation_at_header_scan.2.1 1 (List.replicate 100 7) (by norm_num) (by norm_num)

/-- Counterexample for C1 as stated: on the empty input (shorter than 512
bytes) the conversion raises the EmptyArchive error, not TruncatedArchive. -/
theorem empty_input_not_truncated :
    processTarToZip 1 [] = some (.error .emptyArchive) ∧
      TarErr.emptyArchive ≠ TarErr.truncatedHeader :=
  ⟨rfl, by decide⟩

/-- Claim C3 (confirmed): a failing (non-terminator) header block increments
the consecutive-invalid counter and, below the threshold of 3, advances the
offset by exactly 512 bytes — never by the claimed size; at the threshold the
fatal CorruptArchive-class error (`failed multipleInvalid`, i.e.
`"Failed to process tar file: Multiple invalid headers found …"`) is raised; a
valid header resets the counter to 0.  Consequently two corrupted blocks
followed by a valid directory entry yield that entry with no error, and three
corrupted blocks raise the fatal error. -/
theorem invalid_header_recovery :
    (∀ (buf : List Nat) (s : WalkState) (o : Int), s.offset = some o →
        o < (buf.length : Int) → ¬ (buf.length : Int) < o + 512 →
        (jsSlice buf o (o + 512)).all (fun b => b == 0) = false →
        validateTarHeader (jsSlice buf o (o + 512)) = false →
        s.consecutiveErrors + 1 < 3 →
        walkStep buf s = .next { s with consecutiveErrors := s.consecutiveErrors + 1,
                                        offset := some (o + 512) }) ∧
    (∀ (buf : List Nat) (s : WalkState) (o : Int), s.offset = some o →
        o < (buf.length : Int) → ¬ (buf.length : Int) < o + 512 →
        (jsSlice buf o (o + 512)).all (fun b => b == 0) = false →
        validateTarHeader (jsSlice buf o (o + 512)) = false →
        3 ≤ s.consecutiveErrors + 1 →
        walkStep buf s = .done (.error (.failed .multipleInvalid))) ∧
    (∀ (buf : List Nat) (s s1 : WalkState) (o : Int), s.offset = some o →
        o < (buf.length : Int) → ¬ (buf.length : Int) < o + 512 →
        validateTarHeader (jsSlice buf o (o + 512)) = true →
        walkStep buf s = .next s1 → s1.consecutiveErrors = 0) ∧
    (∀ (f : Nat) (b1 b2 : List Nat), b1.length = 512 → b2.length = 512 →
        b1.all (fun b => b == 0) = false → b2.all (fun b => b == 0) = false →
        validateTarHeader b1 = false → validateTarHeader b2 = false →
        processTarToZip (3 + f) (b1 ++ b2 ++ dirHeader)
          = some (.ok [.folder [100]])) ∧
    (∀ (f : Nat) (b1 b2 b3 : List Nat),
        b1.length = 512 → b2.length = 512 → b3.length = 512 →
        b1.all (fun b => b == 0) = false → b2.all (fun b => b == 0) = false →
        b3.all (fun b => b == 0) = false →
        validateTarHeader b1 = false → validateTarHeader b2 = false →
        validateTarHeader b3 = false →
        processTarToZip (2 + f) (b1 ++ b2 ++ b3)
          = some (.error (.failed .multipleInvalid))) := by
  refine ⟨?_, ?_, ?_, ?_, ?_⟩
  · intro buf s o hoff h1 h2 hz hv hc
    rw [walkStep_scan hoff h1 h2, processBlock_invalid hz hv, if_neg (by omega)]
  · intro buf s o hoff h1 h2 hz hv hc
    rw [walkStep_scan hoff h1 h2, processBlock_invalid hz hv, if_pos hc]
  · intro buf s s1 o hoff h1 h2 hv hstep
    rw [walkStep_scan hoff h1 h2, processBlock_valid hv] at hstep
    simp only [dispatchEntry] at hstep
    repeat' split at hstep
    all_goals
      first
        | (simp only [StepResult.next.injEq] at hstep
           subst hstep
           rfl)
        | simp at hstep
  · intro f b1 b2 hl1 hl2 hz1 hz2 hv1 hv2
    have hassoc : b1 ++ b2 ++ dirHeader = b1 ++ (b2 ++ dirHeader) :=
      List.append_assoc b1 b2 dirHeader
    have hdl : dirHeader.length = 512 := by rfl
    have hlen : (b1 ++ (b2 ++ dirHeader)).length = 1536 := by
      simp [List.length_append, hl1, hl2, hdl]
    have hslice1 : jsSlice (b1 ++ (b2 ++ dirHeader)) 0 512 = b1 :=
      jsSlice_append_left hl1
    have hslice2 : jsSlice (b1 ++ (b2 ++ dirHeader)) 512 1024 = b2 := by
      have h2x := jsSlice_shift (a := b1) (l := b2 ++ dirHeader)
        (s := 0) (e := 512) (by norm_num) (by norm_num)
      rw [hl1] at h2x
      norm_num at h2x
      rw [h2x, jsSlice_append_left hl2]
    have hslice3 : jsSlice (b1 ++ (b2 ++ dirHeader)) 1024 1536 = dirHeader := by
      have h3x := jsSlice_shift (a := b1) (l := b2 ++ dirHeader)
        (s := 512) (e := 1024) (by norm_num) (by norm_num)
      rw [hl1] at h3x
      norm_num at h3x
      have h3y := jsSlice_shift (a := b2) (l := dirHeader)
        (s := 0) (e := 512) (by norm_num) (by norm_num)
      rw [hl2] at h3y
      norm_num at h3y
      rw [h3x, h3y, jsSlice_self hdl]
    have e1 : walkStep (b1 ++ (b2 ++ dirHeader))
        { offset := some 0, fileCount := 0, consecutiveErrors := 0, sink := [] }
        = .next { offset := some 512, fileCount := 0, consecutiveErrors := 1, sink := [] } := by
      rw [walkStep_scan rfl (by rw [hlen]; norm_num) (by rw [hlen]; norm_num),
          (by norm_num : (0 : Int) + 512 = 512), hslice1,
          processBlock_invalid hz1 hv1, if_neg (by norm_num)]
      norm_num
    have e2 : walkStep (b1 ++ (b2 ++ dirHeader))
        { offset := some 512, fileCount := 0, consecutiveErrors := 1, sink := [] }
        = .next { offset := some 1024, fileCount := 0, consecutiveErrors := 2, sink := [] } := by
      rw [walkStep_scan rfl (by rw [hlen]; norm_num) (by rw [hlen]; norm_num),
          (by norm_num : (512 : Int) + 512 = 1024), hslice2,
          processBlock_invalid hz2 hv2, if_neg (by norm_num)]
      norm_num
    have e3 : walkStep (b1 ++ (b2 ++ dirHeader))
        { offset := some 1024, fileCount := 0, consecutiveErrors := 2, sink := [] }
        = .next { offset := some 1536, fileCount := 1, consecutiveErrors := 0,
                  sink := [.folder [100]] } := by
      rw [walkStep_scan rfl (by rw [hlen]; norm_num) (by rw [hlen]; norm_num),
          (by norm_num : (1024 : Int) + 512 = 1536), hslice3,
          processBlock_valid (by rfl)]
      rfl
    have e4 : walkStep (b1 ++ (b2 ++ dirHeader))
        { offset := some 1536, fileCount := 1, consecutiveErrors := 0,
          sink := [.folder [100]] }
        = .done (.ok [.folder [100]]) := by
      rw [walkStep_exit rfl (by rw [hlen]; norm_num)]
      rfl
    show runWalk (b1 ++ b2 ++ dirHeader) (3 + f)
      { offset := some 0, fileCount := 0, consecutiveErrors := 0, sink := [] } = _
    rw [hassoc, (by omega : 3 + f = (2 + f) + 1), runWalk_next (2 + f) e1,
        (by omega : 2 + f = (1 + f) + 1), runWalk_next (1 + f) e2,
        (by omega : 1 + f = f + 1), runWalk_next f e3, runWalk_done e4 f]
  · intro f b1 b2 b3 hl1 hl2 hl3 hz1 hz2 hz3 hv1 hv2 hv3
    have hassoc : b1 ++ b2 ++ b3 = b1 ++ (b2 ++ b3) := List.append_assoc b1 b2 b3
    have hlen : (b1 ++ (b2 ++ b3)).length = 1536 := by
      simp [List.length_append, hl1, hl2, hl3]
    have hslice1 : jsSlice (b1 ++ (b2 ++ b3)) 0 512 = b1 :=
      jsSlice_append_left hl1
    have hslice2 : jsSlice (b1 ++ (b2 ++ b3)) 512 1024 = b2 := by
      have h2x := jsSlice_shift (a := b1) (l := b2 ++ b3)
        (s := 0) (e := 512) (by norm_num) (by norm_num)
      rw [hl1] at h2x
      norm_num at h2x
      rw [h2x, jsSlice_append_left hl2]
    have e1 : walkStep (b1 ++ (b2 ++ b3))
        { offset := some 0, fileCount := 0, consecutiveErrors := 0, sink := [] }
        = .next { offset := some 512, fileCount := 0, consecutiveErrors := 1, sink := [] } := by
      rw [walkStep_scan rfl (by rw [hlen]; norm_num) (by rw [hlen]; norm_num),
          (by norm_num : (0 : Int) + 512 = 512), hslice1,
          processBlock_invalid hz1 hv1, if_neg (by norm_num)]
      norm_num
    have e2 : walkStep (b1 ++ (b2 ++ b3))
        { offset := some 512, fileCount := 0, consecutiveErrors := 1, sink := [] }
        = .next { offset := some 1024, fileCount := 0, consecutiveErrors := 2, sink := [] } := by
      rw [walkStep_scan rfl (by rw [hlen]; norm_num) (by rw [hlen]; norm_num),
          (by norm_num : (512 : Int) + 512 = 1024), hslice2,
          processBlock_invalid hz2 hv2, if_neg (by norm_num)]
      norm_num
    have e3 : walkStep (b1 ++ (b2 ++ b3))
        { offset := some 1024, fileCount := 0, consecutiveErrors := 2, sink := [] }
        = .done (.error (.failed .multipleInvalid)) := by
      have hslice3 : jsSlice (b1 ++ (b2 ++ b3)) 1024 1536 = b3 := by
        have h3x := jsSlice_shift (a := b1) (l := b2 ++ b3)
          (s := 512) (e := 1024) (by norm_num) (by norm_num)
        rw [hl1] at h3x
        norm_num at h3x
        have h3y := jsSlice_shift (a := b2) (l := b3)
          (s := 0) (e := 512) (by norm_num) (by norm_num)
        rw [hl2] at h3y
        norm_num at h3y
        rw [h3x, h3y, jsSlice_self hl3]
      rw [walkStep_scan rfl (by rw [hlen]; norm_num) (by rw [hlen]; norm_num),
          (by norm_num : (1024 : Int) + 512 = 1536), hslice3,
          processBlock_invalid hz3 hv3, if_pos (by norm_num)]
    show runWalk (b1 ++ b2 ++ b3) (2 + f)
      { offset := some 0, fileCount := 0, consecutiveErrors := 0, sink := [] } = _
    rw [hassoc, (by omega : 2 + f = (1 + f) + 1), runWalk_next (1 + f) e1,
        (by omega : 1 + f = f + 1), runWalk_next f e2, runWalk_done e3 f]

/-- Witness for C3: two all-ones corrupt blocks then the directory entry are
recovered; three all-ones corrupt blocks are fatal. -/
theorem invalid_header_recovery_witness :
    processTarToZip (3 + 0) (junkBlock ++ junkBlock ++ dirHeader)
        = some (.ok [.folder [100]]) ∧
      processTarToZip (2 + 0) (junkBlock ++ junkBlock ++ junkBlock)
        = some (.error (.failed .multipleInvalid)) :=
  ⟨invalid_header_recovery.2.2.2.1 0 junkBlock junkBlock rfl rfl
      (by decide) (by decide) (by decide) (by decide),
    invalid_header_recovery.2.2.2.2 0 junkBlock junkBlock junkBlock rfl rfl rfl
      (by decide) (by decide) (by decide) (by decide) (by decide) (by decide)⟩

/-- Claim C4 (confirmed): for every successfully decoded entry of size `n`
(header validates and the size field parses), a continuing step advances the
offset to exactly `o + 512 + 512 * ⌈n/512⌉` — for a natural size this ceiling
is `(n + 511) / 512`, so `n = 0` gives a delta of exactly 512; every
continuing step preserves 512-divisibility of the offset, which holds at the
initial offset 0, so the offset is a multiple of 512 at every header scan. -/
theorem entry_padding_law :
    (∀ (buf : List Nat) (s s1 : WalkState) (o n : Int),
        s.offset = some o → o < (buf.length : Int) → ¬ (buf.length : Int) < o + 512 →
        validateTarHeader (jsSlice buf o (o + 512)) = true →
        sizeOfHeader (jsSlice buf o (o + 512)) = some n →
        walkStep buf s = .next s1 →
        s1.offset = some (o + 512 + 512 * ceilDiv512 n)) ∧
    (∀ n : Nat, ceilDiv512 (n : Int) = (((n + 511) / 512 : Nat) : Int)) ∧
    (∀ (buf : List Nat) (s s1 : WalkState), walkStep buf s = .next s1 →
        (∀ o, s.offset = some o → (512 : Int) ∣ o) →
        (∀ o1, s1.offset = some o1 → (512 : Int) ∣ o1)) ∧
    ((512 : Int) ∣ 0) := by
  refine ⟨?_, ?_, ?_, ⟨0, by norm_num⟩⟩
  · intro buf s s1 o n hoff h1 h2 hv hsz hstep
    rw [walkStep_scan hoff h1 h2, processBlock_valid hv] at hstep
    simp only [dispatchEntry, hsz] at hstep
    repeat' split at hstep
    all_goals
      first
        | (simp only [StepResult.next.injEq] at hstep
           subst hstep
           rfl)
        | simp at hstep
  · intro n
    unfold ceilDiv512
    omega
  · intro buf s s1 hstep hdvd o1 ho1
    rcases walkStep_next_offset hstep with ⟨o, hoff, hcase⟩
    have hd := hdvd o hoff
    rcases hcase with h | h | h | ⟨n, h⟩
    · rw [ho1] at h
      simp only [Option.some.injEq] at h
      subst h
      exact dvd_add hd (by norm_num)
    · rw [ho1] at h
      simp only [Option.some.injEq] at h
      subst h
      exact ⟨ceilDiv512 o, mul_comm (ceilDiv512 o) 512⟩
    · rw [ho1] at h
      cases h
    · rw [ho1] at h
      simp only [Option.some.injEq] at h
      subst h
      exact dvd_add (dvd_add hd (by norm_num)) ⟨ceilDiv512 n, rfl⟩

/-- Witness for C4: the `"hello.txt"` entry of size 2 advances the offset from
0 to `512 + 512·⌈2/512⌉ = 1024`. -/
theorem entry_padding_law_witness :
    ({ offset := some 1024, fileCount := 1, consecutiveErrors := 0,
       sink := [SinkCall.fileBytes [104, 101, 108, 108, 111, 46, 116, 120, 116]
                  [104, 105]] } : WalkState).offset
      = some (0 + 512 + 512 * ceilDiv512 2) :=
  entry_padding_law.1 helloTar
    { offset := some 0, fileCount := 0, consecutiveErrors := 0, sink := [] }
    { offset := some 1024, fileCount := 1, consecutiveErrors := 0,
      sink := [SinkCall.fileBytes [104, 101, 108, 108, 111, 46, 116, 120, 116]
                 [104, 105]] }
    0 2 rfl (by decide) (by decide) (by rfl) (by rfl) (by rfl)

/-- Counterexample for C5 as stated: a valid directory entry whose declared
size (8589934591) puts its payload range far beyond the 512-byte buffer is
accepted and the conversion succeeds — no TruncatedArchive is raised. -/
theorem oversized_directory_accepted :
    processTarToZip 2 hugeDirHeader = some (.ok [.folder [100]]) ∧
      sizeOfHeader hugeDirHeader = some 8589934591 ∧
      typeOfHeader hugeDirHeader = 53 ∧
      (hugeDirHeader.length : Int) < 0 + 512 + 8589934591 :=
  ⟨rfl, rfl, rfl, by decide⟩

/-- Claim C5 (corrected, amended): the payload bounds check
`offset + 512 + size > length` is performed only for a RegularFile entry
(type byte `'0'`) with positive parsed size, where its failure raises the
fatal `truncatedPayload` error naming the entry; a directory entry (type
`'5'`) — and likewise PAX, symlink and other-type entries — advances the
offset by its declared padded size with no bounds check at all, so a header
whose declared payload exceeds the buffer can end the walk without any
error. -/
theorem payload_bounds_check_regular_only :
    (∀ (buf : List Nat) (s : WalkState) (o n : Int),
        s.offset = some o → o < (buf.length : Int) → ¬ (buf.length : Int) < o + 512 →
        validateTarHeader (jsSlice buf o (o + 512)) = true →
        jsIncludes (nameOfHeader (jsSlice buf o (o + 512))) paxCodes = false →
        typeOfHeader (jsSlice buf o (o + 512)) = 48 →
        sizeOfHeader (jsSlice buf o (o + 512)) = some n → 0 < n →
        (buf.length : Int) < o + 512 + n →
        walkStep buf s
          = .done (.error (.truncatedPayload (nameOfHeader (jsSlice buf o (o + 512)))))) ∧
    (∀ (buf : List Nat) (s : WalkState) (o n : Int),
        s.offset = some o → o < (buf.length : Int) → ¬ (buf.length : Int) < o + 512 →
        validateTarHeader (jsSlice buf o (o + 512)) = true →
        jsIncludes (nameOfHeader (jsSlice buf o (o + 512))) paxCodes = false →
        typeOfHeader (jsSlice buf o (o + 512)) = 53 →
        sizeOfHeader (jsSlice buf o (o + 512)) = some n →
        walkStep buf s
          = .next { s with consecutiveErrors := 0,
                           fileCount := s.fileCount + 1,
                           sink := s.sink ++ [.folder (nameOfHeader (jsSlice buf o (o + 512)))],
                           offset := some (o + 512 + 512 * ceilDiv512 n) }) := by
  constructor
  · intro buf s o n hoff h1 h2 hv hpax htype hsz hn hbound
    rw [walkStep_scan hoff h1 h2, processBlock_valid hv]
    simp [dispatchEntry, hpax, htype, hsz, hn, hbound]
  · intro buf s o n hoff h1 h2 hv hpax htype hsz
    rw [walkStep_scan hoff h1 h2, processBlock_valid hv]
    simp [dispatchEntry, hpax, htype, hsz, advanceOffset]

/-- Witness for C5: a truncated regular file raises the payload-truncation
error naming it, while the oversized directory entry of the counterexample is
dispatched with no check. -/
theorem payload_bounds_check_regular_only_witness :
    walkStep helloHeader
        { offset := some 0, fileCount := 0, consecutiveErrors := 0, sink := [] }
      = .done (.error (.truncatedPayload
          (nameOfHeader (jsSlice helloHeader 0 (0 + 512))))) ∧
    walkStep hugeDirHeader
        { offset := some 0, fileCount := 0, consecutiveErrors := 0, sink := [] }
      = .next { offset := some (0 + 512 + 512 * ceilDiv512 8589934591),
                fileCount := 0 + 1, consecutiveErrors := 0,
                sink := [] ++ [.folder (nameOfHeader (jsSlice hugeDirHeader 0 (0 + 512)))] } :=
  ⟨payload_bounds_check_regular_only.1 helloHeader _ 0 2 rfl (by decide) (by decide)
      (by rfl) (by rfl) (by rfl) (by rfl) (by decide) (by decide),
    payload_bounds_check_regular_only.2 hugeDirHeader _ 0 8589934591 rfl (by decide)
      (by decide) (by rfl) (by rfl) (by rfl) (by rfl)⟩

/-- Claim C6 (confirmed): an all-zero scanned block terminates the traversal —
with a non-zero accepted count the walk ends successfully with the current
sink; with a zero count the thrown EmptyArchive error is caught, retried at
the same (512-aligned) offset and, within 3 iterations, surfaces as the fatal
CorruptArchive-class error `failed emptyArchive`; moreover no run ever
returns a sink successfully while the accepted-entry count is zero (the sink
of a successful run is never empty). -/
theorem zero_block_terminates :
    (∀ (buf : List Nat) (s : WalkState) (o : Int),
        s.offset = some o → o < (buf.length : Int) → ¬ (buf.length : Int) < o + 512 →
        (jsSlice buf o (o + 512)).all (fun b => b == 0) = true →
        s.fileCount ≠ 0 →
        walkStep buf s = .done (.ok s.sink)) ∧
    (∀ (buf : List Nat) (s : WalkState) (o : Int),
        s.offset = some o → o < (buf.length : Int) → ¬ (buf.length : Int) < o + 512 →
        (jsSlice buf o (o + 512)).all (fun b => b == 0) = true →
        s.fileCount = 0 → (512 : Int) ∣ o →
        runWalk buf 3 s = some (.error (.failed .emptyArchive))) ∧
    (∀ (fuel : Nat) (buf : List Nat) (r : List SinkCall),
        processTarToZip fuel buf = some (.ok r) → r ≠ []) := by
  refine ⟨?_, ?_, ?_⟩
  · intro buf s o hoff h1 h2 hz hc
    rw [walkStep_scan hoff h1 h2, processBlock_zero hz, if_neg hc]
    unfold finalCheck
    rw [if_neg hc]
  · intro buf s o hoff h1 h2 hz hc hdvd
    have hre : ceilDiv512 o * 512 = o := ceilDiv512_mul_of_dvd hdvd
    obtain ⟨off, fc, ce, sk⟩ := s
    simp only [WalkState.offset] at hoff
    subst hoff
    simp only [WalkState.fileCount] at hc
    subst hc
    have hstep : ∀ (c2 : Nat) (sk2 : List SinkCall),
        walkStep buf { offset := some o, fileCount := 0, consecutiveErrors := c2, sink := sk2 }
          = recoverStep { offset := some o, fileCount := 0, consecutiveErrors := c2, sink := sk2 }
              o .emptyArchive := by
      intro c2 sk2
      rw [walkStep_scan rfl h1 h2, processBlock_zero hz, if_pos rfl]
    by_cases hc2 : 3 ≤ ce + 1
    · refine runWalk_done ?_ 3
      rw [hstep ce sk]
      unfold recoverStep
      rw [if_pos hc2]
    · have e1 : walkStep buf { offset := some o, fileCount := 0, consecutiveErrors := ce, sink := sk }
          = .next { offset := some o, fileCount := 0, consecutiveErrors := ce + 1, sink := sk } := by
        rw [hstep ce sk]
        unfold recoverStep
        rw [if_neg hc2, hre]
      rw [(by norm_num : (3 : Nat) = 2 + 1), runWalk_next 2 e1]
      by_cases hc3 : 3 ≤ ce + 1 + 1
      · refine runWalk_done ?_ 2
        rw [hstep (ce + 1) sk]
        unfold recoverStep
        rw [if_pos hc3]
      · have e2 : walkStep buf
            { offset := some o, fileCount := 0, consecutiveErrors := ce + 1, sink := sk }
            = .next { offset := some o, fileCount := 0, consecutiveErrors := ce + 1 + 1, sink := sk } := by
          rw [hstep (ce + 1) sk]
          unfold recoverStep
          rw [if_neg hc3, hre]
        rw [(by norm_num : (2 : Nat) = 1 + 1), runWalk_next 1 e2]
        refine runWalk_done ?_ 1
        rw [hstep (ce + 1 + 1) sk]
        unfold recoverStep
        rw [if_pos (show (3 : Nat) ≤ ce + 1 + 1 + 1 by omega)]
  · intro fuel buf r h
    suffices H : ∀ (f : Nat) (t : WalkState), (t.fileCount ≠ 0 → t.sink ≠ []) →
        runWalk buf f t = some (.ok r) → r ≠ [] by
      refine H fuel _ ?_ h
      intro h0
      exact absurd rfl h0
    intro f
    induction f with
    | zero =>
      intro t hinv hrun
      cases hws : walkStep buf t with
      | done r0 =>
        rw [runWalk_done hws 0] at hrun
        have hr0 : r0 = Except.ok r := Option.some.inj hrun
        subst hr0
        obtain ⟨hsink, hcount⟩ := walkStep_done_ok hws
        rw [hsink]
        exact hinv hcount
      | next t1 =>
        rw [runWalk, hws] at hrun
        cases hrun
    | succ f ih =>
      intro t hinv hrun
      cases hws : walkStep buf t with
      | done r0 =>
        rw [runWalk_done hws (f + 1)] at hrun
        have hr0 : r0 = Except.ok r := Option.some.inj hrun
        subst hr0
        obtain ⟨hsink, hcount⟩ := walkStep_done_ok hws
        rw [hsink]
        exact hinv hcount
      | next t1 =>
        rw [runWalk_next f hws] at hrun
        refine ih t1 ?_ hrun
        intro hfc1
        rcases walkStep_next_shape hws with ⟨hsk, hfc⟩ | ⟨c, hsk, hfc⟩
        · rw [hsk]
          exact hinv (by rw [← hfc]; exact hfc1)
        · rw [hsk]
          simp

/-- Witness for C6: the terminator after the `"hello.txt"` entry ends the walk
with the one-call sink; a lone zero block (count 0) is the fatal empty-archive
case; and the successful `helloTar` run has a non-empty sink. -/
theorem zero_block_terminates_witness :
    walkStep (helloTar ++ zeroBlock)
        { offset := some 1024, fileCount := 1, consecutiveErrors := 0,
          sink := [.fileBytes [104, 101, 108, 108, 111, 46, 116, 120, 116] [104, 105]] }
      = .done (.ok [.fileBytes [104, 101, 108, 108, 111, 46, 116, 120, 116] [104, 105]]) ∧
    runWalk zeroBlock 3
        { offset := some 0, fileCount := 0, consecutiveErrors := 0, sink := [] }
      = some (.error (.failed .emptyArchive)) ∧
    ([SinkCall.fileBytes [104, 101, 108, 108, 111, 46, 116, 120, 116] [104, 105]]
        : List SinkCall) ≠ [] :=
  ⟨zero_block_terminates.1 (helloTar ++ zeroBlock) _ 1024 rfl (by decide) (by decide)
      (by decide) (by decide),
    zero_block_terminates.2.1 zeroBlock _ 0 rfl (by decide) (by decide) (by decide)
      (by decide) ⟨0, by norm_num⟩,
    zero_block_terminates.2.2 2 helloTar _ (by rfl)⟩

/-- Counterexample for C7 as stated: a header that passes validation but whose
size field is the non-octal text `"xyz"` is NOT treated as an invalid header —
the consecutive-invalid counter stays 0, the offset becomes `NaN` instead of
advancing 512 bytes, the entry is even dispatched (a folder call), and the
valid directory entry in the following block is never scanned. -/
theorem garbage_size_not_treated_as_invalid :
    walkStep garbageSizeTar
        { offset := some 0, fileCount := 0, consecutiveErrors := 0, sink := [] }
      = .next { offset := none, fileCount := 1, consecutiveErrors := 0,
                sink := [.folder [100]] } ∧
      validateTarHeader garbageSizeHeader = true ∧
      sizeOfHeader garbageSizeHeader = none ∧
      processTarToZip 2 garbageSizeTar = some (.ok [.folder [100]]) :=
  ⟨rfl, rfl, rfl, rfl⟩

/-- Claim C7 (corrected, amended): numeric decoding of a non-octal size field
is a decode failure (`parseInt` yields `NaN`, modelled `none`), never a crash;
but the walker does NOT treat such a block as an invalid header: a validated
header with unparseable size keeps the error counter at 0, is dispatched by
type, and sets the offset to `NaN`, so the loop test fails at the next
iteration and the walk ends with the final empty-archive check. -/
theorem garbage_size_ends_walk :
    (∀ (buf : List Nat) (s : WalkState) (o : Int),
        s.offset = some o → o < (buf.length : Int) → ¬ (buf.length : Int) < o + 512 →
        validateTarHeader (jsSlice buf o (o + 512)) = true →
        sizeOfHeader (jsSlice buf o (o + 512)) = none →
        ∃ s1, walkStep buf s = .next s1 ∧ s1.offset = none ∧
          s1.consecutiveErrors = 0) ∧
    (∀ (buf : List Nat) (s : WalkState), s.offset = none →
        walkStep buf s = .done (finalCheck s)) := by
  constructor
  · intro buf s o hoff h1 h2 hv hsz
    rw [walkStep_scan hoff h1 h2, processBlock_valid hv]
    simp only [dispatchEntry, hsz]
    by_cases hp : jsIncludes (nameOfHeader (jsSlice buf o (o + 512))) paxCodes = true
    · rw [if_pos hp]
      exact ⟨_, rfl, rfl, rfl⟩
    · rw [if_neg hp]
      by_cases h48 : (typeOfHeader (jsSlice buf o (o + 512)) == 48) = true
      · rw [if_pos h48]
        exact ⟨_, rfl, rfl, rfl⟩
      · rw [if_neg h48]
        by_cases h50 : (typeOfHeader (jsSlice buf o (o + 512)) == 50) = true
        · rw [if_pos h50]
          exact ⟨_, rfl, rfl, rfl⟩
        · rw [if_neg h50]
          by_cases h53 : (typeOfHeader (jsSlice buf o (o + 512)) == 53) = true
          · rw [if_pos h53]
            exact ⟨_, rfl, rfl, rfl⟩
          · rw [if_neg h53]
            exact ⟨_, rfl, rfl, rfl⟩
  · intro buf s hoff
    exact walkStep_offset_none hoff

/-- Witness for C7 at the garbage-size fixture. -/
theorem garbage_size_ends_walk_witness :
    (∃ s1, walkStep garbageSizeTar
        { offset := some 0, fileCount := 0, consecutiveErrors := 0, sink := [] }
      = .next s1 ∧ s1.offset = none ∧ s1.consecutiveErrors = 0) ∧
    walkStep garbageSizeTar
        { offset := none, fileCount := 1, consecutiveErrors := 0, sink := [.folder [100]] }
      = .done (finalCheck
          { offset := none, fileCount := 1, consecutiveErrors := 0, sink := [.folder [100]] }) :=
  ⟨garbage_size_ends_walk.1 garbageSizeTar _ 0 rfl (by decide) (by decide) (by rfl) (by rfl),
    garbage_size_ends_walk.2 garbageSizeTar _ rfl⟩

/-- Claim C8 (code_bug): the `case '':` branch of the type switch — commented
`// For older tar formats` — is unreachable, because
`String.fromCharCode(header[156])` always has length 1 and can never be the
empty string.  A valid pre-POSIX regular-file entry with type byte 0 and
positive size is therefore silently skipped (no sink call, not counted),
and a single-entry archive of that form is rejected as empty instead of
producing one file write. -/
theorem old_format_type_byte_skipped :
    processTarToZip 2 oldTypeTar = some (.error .emptyArchive) ∧
      validateTarHeader (mkHeader [102] [50] 0 []) = true ∧
      typeOfHeader (mkHeader [102] [50] 0 []) = 0 ∧
      sizeOfHeader (mkHeader [102] [50] 0 []) = some 2 :=
  ⟨rfl, rfl, rfl, rfl⟩

/-- Claim C9 (confirmed): when the first two bytes are the gzip magic
`0x1f 0x8b`, the pipeline first calls the external decompressor and then walks
the decompressed bytes: an inflate failure yields the fatal
`decompression` error (`'Failed to decompress gzip file…'`) — a constructor
distinct from every tar-level (CorruptArchive) error — and an inflate success
makes the result exactly the walk of the inflated buffer. -/
theorem gzip_path_decompresses_first :
    (∀ (inflate : List Nat → Except Unit (List Nat)) (fuel : Nat) (buf : List Nat),
        buf.get? 0 = some 31 → buf.get? 1 = some 139 →
        convertToZip inflate fuel buf =
          match inflate buf with
          | .error _ => some (.error .decompression)
          | .ok out => (processTarToZip fuel out).map (Except.mapError ConvErr.tar)) ∧
    (∀ e : TarErr, ConvErr.decompression ≠ ConvErr.tar e) := by
  constructor
  · intro inflate fuel buf hg0 hg1
    unfold convertToZip
    rw [if_pos (show isGzipped buf = true by
      simp only [isGzipped, Bool.and_eq_true, beq_iff_eq]
      exact ⟨hg0, hg1⟩)]
  · intro e h
    cases h

/-- Witness for C9: a failing inflate on a gzip-magic buffer reports the
decompression error; a successful inflate to `helloTar` walks it. -/
theorem gzip_path_decompresses_first_witness :
    convertToZip (fun _ => .error ()) 1 [31, 139]
      = some (.error .decompression) ∧
    convertToZip (fun _ => .ok helloTar) 2 [31, 139]
      = (processTarToZip 2 helloTar).map (Except.mapError ConvErr.tar) ∧
    ConvErr.decompression ≠ ConvErr.tar .emptyArchive :=
  ⟨gzip_path_decompresses_first.1 (fun _ => .error ()) 1 [31, 139] rfl rfl,
    gzip_path_decompresses_first.1 (fun _ => .ok helloTar) 2 [31, 139] rfl rfl,
    gzip_path_decompresses_first.2 .emptyArchive⟩

/-- Claim C10 (code_bug): the walk does NOT terminate on every finite input.
A valid regular-file header whose size field reads `"-1001"` (octal −513)
passes validation, dispatches nothing (`size > 0` fails), and advances the
offset by `512 + 512·⌈−513/512⌉ = 0`: the loop re-scans the same block in the
same state forever — the iteration neither advances, nor exits, nor raises,
nor touches the consecutive-error counter.  The run is out of fuel at every
fuel bound, and the offending step maps the initial state to itself. -/
theorem negative_size_walk_diverges :
    (∀ fuel : Nat, processTarToZip fuel negSizeHeader = none) ∧
      walkStep negSizeHeader
          { offset := some 0, fileCount := 0, consecutiveErrors := 0, sink := [] }
        = .next { offset := some 0, fileCount := 0, consecutiveErrors := 0, sink := [] } ∧
      validateTarHeader negSizeHeader = true ∧
      sizeOfHeader negSizeHeader = some (-513) := by
  have hstep : walkStep negSizeHeader
      { offset := some 0, fileCount := 0, consecutiveErrors := 0, sink := [] }
      = .next { offset := some 0, fileCount := 0, consecutiveErrors := 0, sink := [] } := by
    rfl
  refine ⟨?_, hstep, rfl, rfl⟩
  intro fuel
  induction fuel with
  | zero =>
    show runWalk negSizeHeader 0
      { offset := some 0, fileCount := 0, consecutiveErrors := 0, sink := [] } = none
    rw [runWalk, hstep]
  | succ f ih =>
    show runWalk negSizeHeader (f + 1)
      { offset := some 0, fileCount := 0, consecutiveErrors := 0, sink := [] } = none
    rw [runWalk_next f hstep]
    exact ih
